import Mathlib

/-!
Verification of the checkout pipeline of the book-tech backend.

The persistent store (PostgreSQL tables `Carts`, `CartItems`, `Books`,
`BookCategories`, `ShippingAddresses`, `Orders`, `OrderItems`, `Payments`,
`UserBooks`) is modelled as a record of lists of rows, and every model /
controller function (`models/cartModel.js`, `models/checkoutModel.js`,
`models/bookModel.js`, `controllers/checkoutController.js`) becomes an
explicit state-passing Lean function over that record.

Conventions:
* UUIDs and `SERIAL` ids are modelled as `Nat`; a single monotone counter
  `DB.next` supplies fresh ids and also serves as the clock stamped into
  `added_at` / `created_at` columns (`Date.now()` is likewise read from it).
* Monetary amounts and quantities are `Nat` (the cart controller rejects
  non-positive quantities on add and negative quantities on update, so the
  stored values are non-negative).
* Row statuses are the exact strings the SQL writes
  (`"Pending"`, `"Payment_Success"`, `"Payment_Failed"`, `"Completed"`).
* A fallible storage write (each `INSERT` of the order-item bulk insert,
  which `addOrderItems` wraps in `BEGIN`/`COMMIT`/`ROLLBACK`) is modelled
  with an oracle `insOk : Nat → Bool` saying whether the k-th `INSERT`
  succeeds.
-/

namespace BookTech

/-- A row of `Books` (columns relevant to checkout; `bookModel.findBookById`
additionally joins `BookCategories` on `category_id`, so the category table
is kept as a list of ids). -/
structure Book where
  book_id : Nat
  category_id : Nat
  price : Nat
  title : String
  author_name : String
  cover_image_url : String
deriving Repr, DecidableEq

/-- A row of `Carts`: one cart per user, created lazily. -/
structure Cart where
  cart_id : Nat
  user_id : Nat
deriving Repr, DecidableEq

/-- A row of `CartItems`. -/
structure CartItem where
  cart_item_id : Nat
  cart_id : Nat
  book_id : Nat
  quantity : Nat
  added_at : Nat
deriving Repr, DecidableEq

/-- A row of `ShippingAddresses`. -/
structure ShippingAddress where
  address_id : Nat
  user_id : Nat
  address_line1 : String
  address_line2 : Option String
  city : String
  province : String
  postal_code : String
  country : String
  is_default : Bool
  created_at : Nat
deriving Repr, DecidableEq

/-- A row of `Orders`. -/
structure Order where
  order_id : Nat
  user_id : Nat
  total_amount : Nat
  shipping_address_id : Option Nat
  status : String
  payment_id : Option Nat
  created_at : Nat
deriving Repr, DecidableEq

/-- A row of `OrderItems`. -/
structure OrderItem where
  order_item_id : Nat
  order_id : Nat
  book_id : Nat
  quantity : Nat
  price_at_purchase : Nat
deriving Repr, DecidableEq

/-- A row of `Payments`. -/
structure Payment where
  payment_id : Nat
  user_id : Nat
  order_id : Nat
  payment_method : String
  amount : Nat
  status : String
  transaction_id : Option String
deriving Repr, DecidableEq

/-- A row of `UserBooks` (the user-book ownership ledger). -/
structure UserBook where
  user_book_id : Nat
  user_id : Nat
  book_id : Nat
deriving Repr, DecidableEq

/-- The persistent store: every table as a list of rows, plus the fresh-id /
clock counter. -/
structure DB where
  carts : List Cart
  cartItems : List CartItem
  books : List Book
  categories : List Nat
  addresses : List ShippingAddress
  orders : List Order
  orderItems : List OrderItem
  payments : List Payment
  userBooks : List UserBook
  next : Nat
deriving Repr, DecidableEq

/-! ### models/cartModel.js -/

/-- `cartModel.getOrCreateCart(userId)`: `SELECT cart_id FROM Carts WHERE
user_id = $1`, inserting a fresh cart when the user has none. -/
def getOrCreateCart (db : DB) (userId : Nat) : Cart × DB :=
  match db.carts.find? (fun c => c.user_id == userId) with
  | some cart => (cart, db)
  | none =>
      let cart : Cart := ⟨db.next, userId⟩
      (cart, { db with carts := db.carts ++ [cart], next := db.next + 1 })

/-- `cartModel.addOrUpdateCartItem(cartId, bookId, quantity)`: if a
`(cart_id, book_id)` row exists its quantity becomes existing + quantity
(`UPDATE ... SET quantity = $3`), otherwise a fresh row is inserted. -/
def addOrUpdateCartItem (db : DB) (cartId bookId quantity : Nat) :
    CartItem × DB :=
  match db.cartItems.find? (fun ci => ci.cart_id == cartId && ci.book_id == bookId) with
  | some existing =>
      let updatedQuantity := existing.quantity + quantity
      let upd := fun ci =>
        if ci.cart_id == cartId && ci.book_id == bookId then
          { ci with quantity := updatedQuantity }
        else ci
      ({ existing with quantity := updatedQuantity },
       { db with cartItems := db.cartItems.map upd })
  | none =>
      let row : CartItem := ⟨db.next, cartId, bookId, quantity, db.next⟩
      (row, { db with cartItems := db.cartItems ++ [row], next := db.next + 1 })

/-- The shape of a row returned by the `JOIN Books` query of
`cartModel.getCartItemsByCartId`. -/
structure CartItemView where
  cart_item_id : Nat
  book_id : Nat
  quantity : Nat
  added_at : Nat
  title : String
  author_name : String
  price : Nat
  cover_image_url : String
deriving Repr, DecidableEq

/-- `cartModel.getCartItemsByCartId(cartId)`: items of the cart inner-joined
with `Books` (an item whose book row is gone is dropped by the join),
`ORDER BY ci.added_at DESC`. -/
def getCartItemsByCartId (db : DB) (cartId : Nat) : List CartItemView :=
  ((db.cartItems.filter (fun ci => ci.cart_id == cartId)).filterMap
      (fun ci =>
        (db.books.find? (fun b => b.book_id == ci.book_id)).map
          (fun b =>
            ⟨ci.cart_item_id, ci.book_id, ci.quantity, ci.added_at,
             b.title, b.author_name, b.price, b.cover_image_url⟩))).insertionSort
    (fun a b => b.added_at ≤ a.added_at)

/-- `cartModel.removeCartItem(cartId, bookId)`: `DELETE ... RETURNING`; the
boolean is `rowCount > 0`. -/
def removeCartItem (db : DB) (cartId bookId : Nat) : Bool × DB :=
  let hit := fun (ci : CartItem) => ci.cart_id == cartId && ci.book_id == bookId
  let deletedRows := db.cartItems.filter hit
  (!deletedRows.isEmpty,
   { db with cartItems := db.cartItems.filter (fun ci => !hit ci) })

/-- Result of `cartModel.updateCartItemQuantity`: the JS function returns the
deletion boolean when it delegates to `removeCartItem`, and the updated row
(or `undefined`) otherwise. -/
inductive UpdateQtyResult where
  | removed (deleted : Bool)
  | updated (row : Option CartItem)
deriving Repr, DecidableEq

/-- `cartModel.updateCartItemQuantity(cartId, bookId, newQuantity)`:
quantity ≤ 0 delegates to `removeCartItem`; otherwise the row is overwritten
(`SET quantity = $3`) and returned, `undefined` when absent. -/
def updateCartItemQuantity (db : DB) (cartId bookId newQuantity : Nat) :
    UpdateQtyResult × DB :=
  if newQuantity ≤ 0 then
    let (deleted, db') := removeCartItem db cartId bookId
    (.removed deleted, db')
  else
    match db.cartItems.find? (fun ci => ci.cart_id == cartId && ci.book_id == bookId) with
    | some existing =>
        let upd := fun ci =>
          if ci.cart_id == cartId && ci.book_id == bookId then
            { ci with quantity := newQuantity }
          else ci
        (.updated (some { existing with quantity := newQuantity }),
         { db with cartItems := db.cartItems.map upd })
    | none => (.updated none, db)

/-! ### models/bookModel.js -/

/-- `bookModel.findBookById(bookId)`: `SELECT b.*, bc.category_name FROM
Books b JOIN BookCategories bc ON b.category_id = bc.category_id WHERE
b.book_id = $1` — the inner join makes the lookup fail when the book row is
absent or its category id has no `BookCategories` row. -/
def findBookById (db : DB) (bookId : Nat) : Option Book :=
  match db.books.find? (fun b => b.book_id == bookId) with
  | some b => if db.categories.contains b.category_id then some b else none
  | none => none

/-! `bookModel.js` exports `insertBook`, `findAllBooks`,
`findBooksByCategoryName`, `findBookById`, `updateBookById`, `searchBooks`,
`deleteBookById`, `countLikesForBook`, `addBookComment`,
`getCommentsForBook`, `findAllCategories` — and nothing named
`purchaseBook`; that fact matters for `confirmOrder` below. -/

/-! ### models/checkoutModel.js -/

/-- The new-address payload of `checkoutModel.saveShippingAddress`.
Fields the HTTP layer treats as required are plain `String`s; `line2` is
optional, and `is_default` defaults to `false` in the JS destructuring. -/
structure AddressData where
  address_line1 : String
  address_line2 : Option String
  city : String
  province : String
  postal_code : String
  country : String
  is_default : Bool
deriving Repr, DecidableEq

/-- `checkoutModel.saveShippingAddress(userId, addressData)`: when
`is_default` is requested, first `UPDATE ShippingAddresses SET is_default =
FALSE WHERE user_id = $1`, then `INSERT ... RETURNING *`. -/
def saveShippingAddress (db : DB) (userId : Nat) (a : AddressData) :
    ShippingAddress × DB :=
  let db1 :=
    if a.is_default then
      { db with addresses := db.addresses.map (fun ad =>
          if ad.user_id == userId then { ad with is_default := false } else ad) }
    else db
  let row : ShippingAddress :=
    ⟨db1.next, userId, a.address_line1, a.address_line2, a.city, a.province,
     a.postal_code, a.country, a.is_default, db1.next⟩
  (row, { db1 with addresses := db1.addresses ++ [row], next := db1.next + 1 })

/-- Sort order of `checkoutModel.getShippingAddresses`:
`ORDER BY is_default DESC, created_at DESC`. -/
def addrBefore (a b : ShippingAddress) : Prop :=
  (b.is_default = false ∧ a.is_default = true) ∨
    (a.is_default = b.is_default ∧ b.created_at ≤ a.created_at)

instance : DecidableRel addrBefore := fun a b => by
  unfold addrBefore; infer_instance

/-- `checkoutModel.getShippingAddresses(userId)`: the address rows of the user,
`ORDER BY is_default DESC, created_at DESC`. -/
def getShippingAddresses (db : DB) (userId : Nat) : List ShippingAddress :=
  (db.addresses.filter (fun a => a.user_id == userId)).insertionSort addrBefore

/-- `checkoutModel.createPaymentRecord(userId, orderId, paymentMethod,
amount, status, transactionId)`: `INSERT INTO Payments ... RETURNING *`. -/
def createPaymentRecord (db : DB) (userId orderId : Nat)
    (paymentMethod : String) (amount : Nat) (status : String)
    (transactionId : Option String) : Payment × DB :=
  let row : Payment :=
    ⟨db.next, userId, orderId, paymentMethod, amount, status, transactionId⟩
  (row, { db with payments := db.payments ++ [row], next := db.next + 1 })

/-- `checkoutModel.createOrder(userId, totalAmount, shippingAddressId)`:
`INSERT INTO Orders (user_id, total_amount, shipping_address_id, status)
VALUES ($1, $2, $3, Pending) RETURNING *` (the status literal is fixed in
the SQL text). -/
def createOrder (db : DB) (userId totalAmount : Nat)
    (shippingAddressId : Option Nat) : Order × DB :=
  let row : Order :=
    ⟨db.next, userId, totalAmount, shippingAddressId, "Pending", none, db.next⟩
  (row, { db with orders := db.orders ++ [row], next := db.next + 1 })

/-- The items argument of `checkoutModel.addOrderItems`:
`{ book_id, quantity, price_at_purchase }`. -/
structure NewOrderItem where
  book_id : Nat
  quantity : Nat
  price_at_purchase : Nat
deriving Repr, DecidableEq

/-- The insert loop inside the transaction of `checkoutModel.addOrderItems`: the
k-th `INSERT INTO OrderItems ... RETURNING *` succeeds when `insOk k`; the
first failure aborts the whole loop. -/
def addOrderItemsGo (insOk : Nat → Bool) (orderId : Nat) :
    Nat → DB → List NewOrderItem → Except String (List OrderItem × DB)
  | _, db, [] => .ok ([], db)
  | k, db, item :: rest =>
      if insOk k then
        let row : OrderItem :=
          ⟨db.next, orderId, item.book_id, item.quantity, item.price_at_purchase⟩
        let db' := { db with orderItems := db.orderItems ++ [row], next := db.next + 1 }
        match addOrderItemsGo insOk orderId (k + 1) db' rest with
        | .ok (rows, db'') => .ok (row :: rows, db'')
        | .error e => .error e
      else .error "order item insert failed"

/-- `checkoutModel.addOrderItems(orderId, items)`: the inserts run between
`BEGIN` and `COMMIT`; on any failure the transaction is rolled back
(`ROLLBACK`), so the store reverts to its pre-call state and the error is
rethrown. -/
def addOrderItems (insOk : Nat → Bool) (db : DB) (orderId : Nat)
    (items : List NewOrderItem) : Except String (List OrderItem) × DB :=
  match addOrderItemsGo insOk orderId 0 db items with
  | .ok (rows, db') => (.ok rows, db')
  | .error e => (.error e, db)

/-- `checkoutModel.updateOrderStatus(orderId, newStatus, paymentId)`:
`UPDATE Orders SET status = $2, payment_id = COALESCE($3, payment_id)
WHERE order_id = $1 RETURNING *`. -/
def updateOrderStatus (db : DB) (orderId : Nat) (newStatus : String)
    (paymentId : Option Nat) : Option Order × DB :=
  let upd := fun (o : Order) =>
    if o.order_id == orderId then
      { o with status := newStatus, payment_id := paymentId.orElse (fun _ => o.payment_id) }
    else o
  let db' := { db with orders := db.orders.map upd }
  ((db.orders.find? (fun o => o.order_id == orderId)).map upd, db')

/-- `checkoutModel.getOrderById(orderId)`:
`SELECT * FROM Orders WHERE order_id = $1`. -/
def getOrderById (db : DB) (orderId : Nat) : Option Order :=
  db.orders.find? (fun o => o.order_id == orderId)

/-! ### models/userModel.js -/

/-- `userModel.addUserBook(userId, bookId)`: `INSERT INTO UserBooks
(user_id, book_id) VALUES ($1, $2) RETURNING ...`. (`confirmOrder` never
reaches this function — see below.) -/
def addUserBook (db : DB) (userId bookId : Nat) : UserBook × DB :=
  let row : UserBook := ⟨db.next, userId, bookId⟩
  (row, { db with userBooks := db.userBooks ++ [row], next := db.next + 1 })

/-! ### controllers/checkoutController.js -/

/-- The JSON answer of a checkout endpoint: HTTP status plus the body
fields the controller actually sets (absent fields stay `none`). -/
structure Resp where
  status : Nat
  message : String
  shippingAddressId : Option Nat := none
  orderId : Option Nat := none
  paymentId : Option Nat := none
  orderStatus : Option String := none
deriving Repr, DecidableEq

/-- Request body of `POST /checkout/shipping`. A field holds `none` when it
is absent or an empty string (both are falsy in the JS guards); `is_default`
is `false` when omitted, matching the destructuring default in
`saveShippingAddress`. -/
structure ShippingBody where
  addressId : Option Nat
  address_line1 : Option String
  address_line2 : Option String
  city : Option String
  province : Option String
  postal_code : Option String
  country : Option String
  is_default : Bool
deriving Repr, DecidableEq

/-- Code shared by both branches of `setShippingInformation` after
`selectedAddressId` and `message` are settled: fetch the cart, reject an
empty cart with 400, otherwise answer 200 with the selected address id. -/
def shippingRespond (db : DB) (userId selectedAddressId : Nat)
    (message : String) : Resp × DB :=
  let (cart, db1) := getOrCreateCart db userId
  let cartItems := getCartItemsByCartId db1 cart.cart_id
  if cartItems.isEmpty then
    ({ status := 400,
       message := "Votre panier est vide. Impossible de démarrer le checkout." },
     db1)
  else
    ({ status := 200, message := message,
       shippingAddressId := some selectedAddressId }, db1)

/-- `checkoutController.setShippingInformation`: select an existing address
owned by the caller (404 when not theirs), or persist a full new-address
payload, or 400 when neither is supplied; then check the cart. Note the
order of effects: the new address is saved before the cart is examined. -/
def setShippingInformation (db : DB) (userId : Nat) (body : ShippingBody) :
    Resp × DB :=
  match body.addressId with
  | some aid =>
      let addresses := getShippingAddresses db userId
      match addresses.find? (fun a => a.address_id == aid) with
      | none =>
          ({ status := 404,
             message := "Adresse de livraison non trouvée pour cet utilisateur." },
           db)
      | some foundAddress =>
          shippingRespond db userId foundAddress.address_id
            "Adresse de livraison sélectionnée avec succès."
  | none =>
      match body.address_line1, body.city, body.province, body.postal_code,
          body.country with
      | some l1, some city, some province, some postal, some country =>
          let (newAddress, db1) := saveShippingAddress db userId
            ⟨l1, body.address_line2, city, province, postal, country,
             body.is_default⟩
          shippingRespond db1 userId newAddress.address_id
            "Nouvelle adresse de livraison enregistrée et sélectionnée avec succès."
      | _, _, _, _, _ =>
          ({ status := 400,
             message := "Veuillez fournir un addressId existant ou les détails complets d\x27une nouvelle adresse." },
           db)

/-- The three payment-method values the simulator branch of
`setPaymentMethod` accepts: `["Credit Card", "PayPal", "E-Wallet"]`. -/
def supportedMethods : List String := ["Credit Card", "PayPal", "E-Wallet"]

/-- The payment-method enum of the data model; `wire` is the string the
HTTP layer and the `Payments` table use for each value. -/
inductive PaymentMethod where
  | CreditCard
  | PayPal
  | EWallet
deriving Repr, DecidableEq

/-- Wire string of a payment method. -/
def PaymentMethod.wire : PaymentMethod → String
  | .CreditCard => "Credit Card"
  | .PayPal => "PayPal"
  | .EWallet => "E-Wallet"

/-- The simulated transaction id
("txn_" ++ `Date.now()` ++ random suffix); the clock is read from the
monotone counter. -/
def mkTxnId (db : DB) : String := "txn_" ++ toString db.next

/-- The running total `cartItems.reduce((sum, item) => sum + item.price *
item.quantity, 0)` used by the payment and session-status endpoints. -/
def cartItemsTotal (items : List CartItemView) : Nat :=
  items.foldl (fun sum item => sum + item.price * item.quantity) 0

/-- `checkoutController.setPaymentMethod`: require a method, require a
non-empty cart, compute the total from current catalog prices, simulate the
payment (always `Completed` for a supported method, 400 otherwise before
any order row exists), create the `Pending` order, record the payment and
move the order to `Payment_Success` / `Payment_Failed`. -/
def setPaymentMethod (db : DB) (userId : Nat) (paymentMethod : Option String)
    (shippingAddressId : Option Nat) : Resp × DB :=
  match paymentMethod with
  | none => ({ status := 400, message := "La méthode de paiement est requise." }, db)
  | some pm =>
      let (cart, db1) := getOrCreateCart db userId
      let cartItems := getCartItemsByCartId db1 cart.cart_id
      if cartItems.isEmpty then
        ({ status := 400,
           message := "Votre panier est vide. Impossible de procéder au paiement." },
         db1)
      else
        let totalAmount := cartItemsTotal cartItems
        if supportedMethods.contains pm then
          let paymentStatus := "Completed"
          let transactionId := some (mkTxnId db1)
          let (order, db2) := createOrder db1 userId totalAmount shippingAddressId
          let (payment, db3) :=
            createPaymentRecord db2 userId order.order_id pm totalAmount
              paymentStatus transactionId
          if paymentStatus == "Completed" then
            let (_, db4) :=
              updateOrderStatus db3 order.order_id "Payment_Success"
                (some payment.payment_id)
            ({ status := 200,
               message := "Méthode de paiement enregistrée et paiement simulé réussi.",
               paymentId := some payment.payment_id,
               orderId := some order.order_id,
               orderStatus := some "Payment_Success" }, db4)
          else
            let (_, db4) :=
              updateOrderStatus db3 order.order_id "Payment_Failed"
                (some payment.payment_id)
            ({ status := 402,
               message := "Paiement échoué. Veuillez réessayer.",
               paymentId := some payment.payment_id,
               orderId := some order.order_id,
               orderStatus := some "Payment_Failed" }, db4)
        else
          ({ status := 400, message := "Méthode de paiement non supportée." }, db1)

/-- The `Promise.all(cartItems.map(...))` of `confirmOrder`: look every cart
item up in the catalog and freeze `book.price` into `price_at_purchase`; a
single failed lookup rejects the whole batch (`none`). -/
def itemsForOrder (db : DB) : List CartItemView → Option (List NewOrderItem)
  | [] => some []
  | item :: rest =>
      match findBookById db item.book_id with
      | none => none
      | some book =>
          (itemsForOrder db rest).map
            (fun tl => ⟨item.book_id, item.quantity, book.price⟩ :: tl)

/-- The cart-clearing loop of `confirmOrder`:
`for (const item of cartItems) removeCartItem(cart_id, item.book_id)`. -/
def drainCart (db : DB) (cartId : Nat) (items : List CartItemView) : DB :=
  items.foldl (fun d item => (removeCartItem d cartId item.book_id).2) db

/-- The catch-all 500 body of `confirmOrder`. -/
def confirmInternalMsg : String :=
  "Erreur interne du serveur lors de la confirmation de la commande."

/-- `checkoutController.confirmOrder`: require an order id, look the order
up (404 when absent or owned by someone else), require status
`Payment_Success` (400 naming the current status), require a non-empty
cart, freeze prices, bulk-insert the order items, set the status to
`Completed` and drain the cart. The final ownership loop calls
`bookModel.purchaseBook`, but `bookModel.js` has no export of that name, so
the namespace-import lookup yields `undefined` and the first iteration
throws a TypeError: the catch block answers 500 and no `UserBooks` row is
ever written, while the earlier writes (order items, `Completed` status,
cart drain) remain in place. -/
def confirmOrder (insOk : Nat → Bool) (db : DB) (userId : Nat)
    (orderId : Option Nat) : Resp × DB :=
  match orderId with
  | none =>
      ({ status := 400,
         message := "L\x27ID de la commande est requis pour la confirmation." },
       db)
  | some oid =>
      match getOrderById db oid with
      | none =>
          ({ status := 404,
             message := "Commande non trouvée ou n\x27appartient pas à cet utilisateur." },
           db)
      | some order =>
          if order.user_id != userId then
            ({ status := 404,
               message := "Commande non trouvée ou n\x27appartient pas à cet utilisateur." },
             db)
          else if order.status != "Payment_Success" then
            ({ status := 400,
               message := "La commande n\x27est pas prête à être confirmée (statut: "
                 ++ order.status ++ ")." },
             db)
          else
            let (cart, db1) := getOrCreateCart db userId
            let cartItems := getCartItemsByCartId db1 cart.cart_id
            if cartItems.isEmpty then
              ({ status := 400,
                 message := "Votre panier est vide. Impossible de confirmer une commande sans articles." },
               db1)
            else
              match itemsForOrder db1 cartItems with
              | none => ({ status := 500, message := confirmInternalMsg }, db1)
              | some items =>
                  match addOrderItems insOk db1 order.order_id items with
                  | (.error _, db2) =>
                      ({ status := 500, message := confirmInternalMsg }, db2)
                  | (.ok _, db2) =>
                      let (_, db3) :=
                        updateOrderStatus db2 order.order_id "Completed" none
                      let db4 := drainCart db3 cart.cart_id cartItems
                      ({ status := 500, message := confirmInternalMsg }, db4)

/-- The 200 body of `GET /checkout/session`. -/
structure SessionStatus where
  user_id : Nat
  cart_id : Nat
  items : List CartItemView
  total_amount : Nat
  shippingAddresses : List ShippingAddress
deriving Repr, DecidableEq

/-- `checkoutController.getCheckoutSessionStatus`: fetch (or lazily create)
the cart, list its items, compute the running total and list the shipping
addresses. -/
def getCheckoutSessionStatus (db : DB) (userId : Nat) : SessionStatus × DB :=
  let (cart, db1) := getOrCreateCart db userId
  let cartItems := getCartItemsByCartId db1 cart.cart_id
  let totalAmount := cartItemsTotal cartItems
  let shippingAddresses := getShippingAddresses db1 userId
  (⟨userId, cart.cart_id, cartItems, totalAmount, shippingAddresses⟩, db1)

/-! ### Derived observers over the store -/

/-- The quantity stored for a `(cart, book)` pair, `0` when the row is
absent. -/
def quantityOf (db : DB) (cartId bookId : Nat) : Nat :=
  match db.cartItems.find? (fun ci => ci.cart_id == cartId && ci.book_id == bookId) with
  | some ci => ci.quantity
  | none => 0

/-- A sequence of `addOrUpdateCartItem` calls for one `(cart, book)` pair. -/
def applyAdds (db : DB) (cartId bookId : Nat) (qs : List Nat) : DB :=
  qs.foldl (fun d q => (addOrUpdateCartItem d cartId bookId q).2) db

/-- How many addresses of a user carry the default flag. -/
def defaultCount (l : List ShippingAddress) (uid : Nat) : Nat :=
  (l.filter (fun a => a.user_id == uid && a.is_default)).length

/-- The single-default invariant of the shipping-address store. -/
def atMostOneDefault (db : DB) : Prop :=
  ∀ uid : Nat, defaultCount db.addresses uid ≤ 1

/-- A sequence of `saveShippingAddress` calls (each with its user). -/
def applySaves (db : DB) (ops : List (Nat × AddressData)) : DB :=
  ops.foldl (fun d op => (saveShippingAddress d op.1 op.2).2) db

/-! ### Helper lemmas -/

/-- The `(cart, book)` predicate is invariant under the quantity rewrite of
`addOrUpdateCartItem` / `updateCartItemQuantity`, so `find?` commutes with
the row update. -/
theorem find?_map_setQuantity (l : List CartItem) (cartId bookId q : Nat) :
    (l.map (fun ci =>
        if ci.cart_id == cartId && ci.book_id == bookId then
          { ci with quantity := q } else ci)).find?
        (fun ci => ci.cart_id == cartId && ci.book_id == bookId) =
      (l.find? (fun ci => ci.cart_id == cartId && ci.book_id == bookId)).map
        (fun ci => { ci with quantity := q }) := by
  rw [List.find?_map]
  have hpf : ((fun ci : CartItem => ci.cart_id == cartId && ci.book_id == bookId) ∘
      (fun ci => if ci.cart_id == cartId && ci.book_id == bookId then
        { ci with quantity := q } else ci)) =
      (fun ci : CartItem => ci.cart_id == cartId && ci.book_id == bookId) := by
    funext ci
    by_cases h : (ci.cart_id == cartId && ci.book_id == bookId) = true
    · simp [Function.comp, h]
    · simp [Function.comp, h]
  rw [hpf]
  cases hf : l.find? (fun ci => ci.cart_id == cartId && ci.book_id == bookId) with
  | none => rfl
  | some ci =>
      have hci := List.find?_some hf
      have hsel : (if (ci.cart_id == cartId && ci.book_id == bookId) = true then
          ({ ci with quantity := q } : CartItem) else ci) = { ci with quantity := q } := by
        rw [if_pos hci]
      simp only [Bool.and_eq_true, beq_iff_eq] at hci
      simp [Option.map, hsel]
      intro h'
      exact absurd hci.2 (h' hci.1)

/-- One `addOrUpdateCartItem` call adds its quantity to the stored one. -/
theorem quantityOf_addOrUpdateCartItem (db : DB) (cartId bookId q : Nat) :
    quantityOf (addOrUpdateCartItem db cartId bookId q).2 cartId bookId =
      quantityOf db cartId bookId + q := by
  unfold quantityOf addOrUpdateCartItem
  cases hf : db.cartItems.find?
      (fun ci => ci.cart_id == cartId && ci.book_id == bookId) with
  | some existing =>
      simp only [hf]
      rw [find?_map_setQuantity, hf]
      simp
  | none =>
      simp only [hf]
      rw [List.find?_append, hf]
      simp

/-- Folding a whole sequence of adds accumulates the sum. -/
theorem quantityOf_applyAdds (db : DB) (cartId bookId : Nat) (qs : List Nat) :
    quantityOf (applyAdds db cartId bookId qs) cartId bookId =
      quantityOf db cartId bookId + qs.sum := by
  induction qs generalizing db with
  | nil => simp [applyAdds]
  | cons q qs ih =>
      have : applyAdds db cartId bookId (q :: qs) =
          applyAdds (addOrUpdateCartItem db cartId bookId q).2 cartId bookId qs := rfl
      rw [this, ih, quantityOf_addOrUpdateCartItem, List.sum_cons]
      omega

/-- `defaultCount` distributes over list append. -/
theorem defaultCount_append (l1 l2 : List ShippingAddress) (uid : Nat) :
    defaultCount (l1 ++ l2) uid = defaultCount l1 uid + defaultCount l2 uid := by
  simp [defaultCount, List.filter_append]

/-- Clearing the default flags of one user leaves that user with no default
address. -/
theorem defaultCount_clear_self (l : List ShippingAddress) (userId : Nat) :
    defaultCount (l.map (fun ad =>
      if ad.user_id == userId then { ad with is_default := false } else ad))
      userId = 0 := by
  induction l with
  | nil => simp [defaultCount]
  | cons a l ih =>
      by_cases h : (a.user_id == userId) = true
      · simpa [defaultCount, List.filter, h] using ih
      · simpa [defaultCount, List.filter, h] using ih

/-- Clearing the default flags of one user does not change the default count
of any other user. -/
theorem defaultCount_clear_other (l : List ShippingAddress) (userId uid : Nat)
    (hne : uid ≠ userId) :
    defaultCount (l.map (fun ad =>
      if ad.user_id == userId then { ad with is_default := false } else ad))
      uid = defaultCount l uid := by
  induction l with
  | nil => simp
  | cons a l ih =>
      by_cases h : (a.user_id == userId) = true
      · have hu : a.user_id = userId := by simpa using h
        have hbeq : (a.user_id == uid) = false := by
          rw [hu]
          exact beq_eq_false_iff_ne.mpr (Ne.symm hne)
        simpa [defaultCount, List.filter, h, hbeq] using ih
      · by_cases h2 : (a.user_id == uid && a.is_default) = true
        · simpa [defaultCount, List.filter, h, h2] using ih
        · simpa [defaultCount, List.filter, h, h2] using ih

/-- One `saveShippingAddress` call preserves the single-default invariant. -/
theorem atMostOneDefault_save (db : DB) (userId : Nat) (a : AddressData)
    (h : atMostOneDefault db) :
    atMostOneDefault (saveShippingAddress db userId a).2 := by
  intro uid
  unfold saveShippingAddress
  by_cases hd : a.is_default = true
  · simp only [hd, if_pos]
    rw [defaultCount_append]
    by_cases huid : uid = userId
    · subst huid
      rw [defaultCount_clear_self]
      simp [defaultCount, List.filter, hd]
    · rw [defaultCount_clear_other _ _ _ huid]
      have hbeq : (userId == uid) = false :=
        beq_eq_false_iff_ne.mpr (fun hh => huid hh.symm)
      have hrow : defaultCount
          [(⟨db.next, userId, a.address_line1, a.address_line2, a.city,
            a.province, a.postal_code, a.country, true, db.next⟩ :
            ShippingAddress)] uid = 0 := by
        simp [defaultCount, List.filter, hbeq]
      rw [hrow]
      simpa using h uid
  · have hd' : a.is_default = false := by
      cases hia : a.is_default
      · rfl
      · exact absurd hia hd
    simp only [hd', Bool.false_eq_true, if_neg, not_false_iff]
    rw [defaultCount_append]
    have hrow : defaultCount
        [(⟨db.next, userId, a.address_line1, a.address_line2, a.city,
          a.province, a.postal_code, a.country, false, db.next⟩ :
          ShippingAddress)] uid = 0 := by
      simp [defaultCount, List.filter]
    rw [hrow]
    simpa using h uid

/-- The bulk-insert loop fails whenever some insert within range fails. -/
theorem addOrderItemsGo_error (insOk : Nat → Bool) (orderId : Nat) :
    ∀ (items : List NewOrderItem) (k : Nat) (db : DB),
      (∃ j, j < items.length ∧ insOk (k + j) = false) →
      ∃ e, addOrderItemsGo insOk orderId k db items = .error e := by
  intro items
  induction items with
  | nil =>
      intro k db hj
      obtain ⟨j, hj, _⟩ := hj
      simp at hj
  | cons item rest ih =>
      intro k db hj
      by_cases hk : insOk k = true
      · obtain ⟨j, hjlen, hjf⟩ := hj
        have hj0 : j ≠ 0 := by
          intro h0
          subst h0
          simp [hk] at hjf
        obtain ⟨j', rfl⟩ := Nat.exists_eq_succ_of_ne_zero hj0
        have hrec := ih (k + 1)
          ({ db with
              orderItems := db.orderItems ++
                [⟨db.next, orderId, item.book_id, item.quantity,
                  item.price_at_purchase⟩],
              next := db.next + 1 })
          ⟨j', by simpa [Nat.succ_eq_add_one] using hjlen, by
            have : k + 1 + j' = k + (j' + 1) := by omega
            rw [this]
            exact hjf⟩
        obtain ⟨e, he⟩ := hrec
        refine ⟨e, ?_⟩
        unfold addOrderItemsGo
        rw [if_pos hk]
        simp only [he]
      · refine ⟨"order item insert failed", ?_⟩
        unfold addOrderItemsGo
        rw [if_neg hk]

/-- The transaction wrapper returns the untouched store on failure. -/
theorem addOrderItems_error (insOk : Nat → Bool) (db : DB) (orderId : Nat)
    (items : List NewOrderItem)
    (hfail : ∃ j, j < items.length ∧ insOk j = false) :
    ∃ e, addOrderItems insOk db orderId items = (.error e, db) := by
  obtain ⟨e, he⟩ := addOrderItemsGo_error insOk orderId items 0 db
    (by simpa using hfail)
  refine ⟨e, ?_⟩
  unfold addOrderItems
  rw [he]

/-- `saveShippingAddress` writes only the address table and the counter. -/
theorem saveShippingAddress_frame (db : DB) (userId : Nat) (a : AddressData) :
    (saveShippingAddress db userId a).2.carts = db.carts ∧
    (saveShippingAddress db userId a).2.cartItems = db.cartItems ∧
    (saveShippingAddress db userId a).2.books = db.books ∧
    (saveShippingAddress db userId a).2.categories = db.categories ∧
    (saveShippingAddress db userId a).2.orders = db.orders ∧
    (saveShippingAddress db userId a).2.orderItems = db.orderItems ∧
    (saveShippingAddress db userId a).2.payments = db.payments ∧
    (saveShippingAddress db userId a).2.userBooks = db.userBooks := by
  unfold saveShippingAddress
  by_cases hd : a.is_default = true <;> simp [hd]

/-- The cart listing reads only the cart-item and book tables. -/
theorem getCartItemsByCartId_congr (db db' : DB) (cartId : Nat)
    (h1 : db'.cartItems = db.cartItems) (h2 : db'.books = db.books) :
    getCartItemsByCartId db' cartId = getCartItemsByCartId db cartId := by
  unfold getCartItemsByCartId
  rw [h1, h2]

/-! ### Concrete stores used by witnesses and counterexamples -/

/-- A store in mid-checkout: user 7 owns cart 10 holding book 1 (price 10,
quantity 2, added at 3) and book 2 (price 5, quantity 1, added at 4), and
order 20 has already reached `Payment_Success` with payment 21. -/
def dbHappy : DB :=
  { carts := [⟨10, 7⟩],
    cartItems := [⟨11, 10, 1, 2, 3⟩, ⟨12, 10, 2, 1, 4⟩],
    books := [⟨1, 1, 10, "A", "aa", "ca"⟩, ⟨2, 1, 5, "B", "bb", "cb"⟩],
    categories := [1],
    addresses := [],
    orders := [⟨20, 7, 25, none, "Payment_Success", some 21, 5⟩],
    orderItems := [],
    payments := [⟨21, 7, 20, "PayPal", 25, "Completed", some "t"⟩],
    userBooks := [],
    next := 30 }

/-- `dbHappy` for a user who has never had a cart. -/
def dbNoCart : DB := { dbHappy with carts := [], cartItems := [] }

/-- `dbHappy` with the cart already empty. -/
def dbEmptyCart : DB := { dbHappy with cartItems := [] }

/-- `dbHappy` with order 20 still `Pending`. -/
def dbPendingOrder : DB :=
  { dbHappy with orders := [⟨20, 7, 25, none, "Pending", some 21, 5⟩] }

/-- A full new-address request body used by witnesses. -/
def bodyW : ShippingBody :=
  ⟨none, some "1 rue", none, some "Montreal", some "QC", some "H1H",
   some "CA", true⟩

/-- The address payload `setShippingInformation` builds from `bodyW`. -/
def dataW : AddressData :=
  ⟨"1 rue", none, "Montreal", "QC", "H1H", "CA", true⟩

/-! ### The claims -/

/-- C6: after any sequence of address-save operations on a store satisfying
the single-default invariant, at most one shipping address per user has
`is_default = true`: saving with `is_default` requested first clears the
default flag on all prior addresses of that user. -/
theorem saveShippingAddress_single_default (db : DB)
    (ops : List (Nat × AddressData)) (h : atMostOneDefault db) :
    atMostOneDefault (applySaves db ops) := by
  induction ops generalizing db with
  | nil => exact h
  | cons op ops ih =>
      have hstep := atMostOneDefault_save db op.1 op.2 h
      have : applySaves db (op :: ops) =
          applySaves (saveShippingAddress db op.1 op.2).2 ops := rfl
      rw [this]
      exact ih _ hstep

/-- Witness for C6: two consecutive default saves for user 1, starting from
the empty address store, leave at most one default per user. -/
theorem saveShippingAddress_single_default_witness :
    atMostOneDefault (applySaves dbNoCart [(1, dataW), (1, dataW)]) :=
  saveShippingAddress_single_default dbNoCart [(1, dataW), (1, dataW)]
    (fun uid => by simp [dbNoCart, dbHappy, defaultCount])

/-- C7: for a `(cart, book)` pair not yet in the store, any sequence of
`addOrUpdateCartItem` calls with positive quantities leaves the pair with
quantity equal to the sum of all quantities added — repeated add is
additive, never a set-once overwrite. -/
theorem addOrUpdateCartItem_additive (db : DB) (cartId bookId : Nat)
    (qs : List Nat)
    (habsent : db.cartItems.find?
      (fun ci => ci.cart_id == cartId && ci.book_id == bookId) = none)
    (hpos : ∀ q ∈ qs, 0 < q) :
    quantityOf (applyAdds db cartId bookId qs) cartId bookId = qs.sum := by
  rw [quantityOf_applyAdds]
  unfold quantityOf
  rw [habsent]
  simp

/-- Witness for C7: adding 2, then 3, then 4 of book 2 to cart 10 yields a
stored quantity of 9. -/
theorem addOrUpdateCartItem_additive_witness :
    quantityOf (applyAdds dbEmptyCart 10 2 [2, 3, 4]) 10 2 = [2, 3, 4].sum :=
  addOrUpdateCartItem_additive dbEmptyCart 10 2 [2, 3, 4] rfl (by decide)

/-- C8: setting the quantity of a `(cart, book)` pair to zero is the removal
operation: both calls produce the same store, the same result (the update
delegates the deletion boolean unchanged), and afterwards the pair is
absent. -/
theorem updateCartItemQuantity_zero_eq_removeCartItem (db : DB)
    (cartId bookId : Nat) :
    (updateCartItemQuantity db cartId bookId 0).2 =
        (removeCartItem db cartId bookId).2 ∧
    (updateCartItemQuantity db cartId bookId 0).1 =
        .removed (removeCartItem db cartId bookId).1 ∧
    ∀ ci ∈ (updateCartItemQuantity db cartId bookId 0).2.cartItems,
      ¬(ci.cart_id = cartId ∧ ci.book_id = bookId) := by
  refine ⟨rfl, rfl, ?_⟩
  intro ci hci hmem
  simp only [updateCartItemQuantity, removeCartItem, Nat.le_refl, if_pos,
    List.mem_filter] at hci
  have := hci.2
  simp [hmem.1, hmem.2] at this

/-- The address listing reads only the address table. -/
theorem getShippingAddresses_congr (db db' : DB) (userId : Nat)
    (h : db'.addresses = db.addresses) :
    getShippingAddresses db' userId = getShippingAddresses db userId := by
  unfold getShippingAddresses
  rw [h]

/-- C4: confirming an order that exists, belongs to the caller, and is not
in `Payment_Success` answers 400 with a message naming the current status,
and writes nothing: the store is returned unchanged. -/
theorem confirmOrder_invalid_state (insOk : Nat → Bool) (db : DB)
    (userId oid : Nat) (order : Order)
    (hord : getOrderById db oid = some order)
    (hown : order.user_id = userId)
    (hst : order.status ≠ "Payment_Success") :
    confirmOrder insOk db userId (some oid) =
      ({ status := 400,
         message := "La commande n\x27est pas prête à être confirmée (statut: "
           ++ order.status ++ ")." }, db) := by
  have hbne : (order.status != "Payment_Success") = true := bne_iff_ne.mpr hst
  simp only [confirmOrder, hord, hown, bne_self_eq_false, hbne,
    Bool.false_eq_true, if_false, if_true]

/-- Witness for C4: confirming order 20 while it is still `Pending` answers
400 naming the `Pending` status and leaves the store untouched. -/
theorem confirmOrder_invalid_state_witness :
    confirmOrder (fun _ => true) dbPendingOrder 7 (some 20) =
      ({ status := 400,
         message := "La commande n\x27est pas prête à être confirmée (statut: "
           ++ "Pending" ++ ")." }, dbPendingOrder) :=
  confirmOrder_invalid_state (fun _ => true) dbPendingOrder 7 20
    ⟨20, 7, 25, none, "Pending", some 21, 5⟩ rfl rfl (by decide)

/-- C1 (code bug): on the fully valid confirm-order input — order 20 is
`Payment_Success` and owned by caller 7, the cart is non-empty, every book
exists — the code does insert one `OrderItem` per cart item with the copied
quantity and the current catalog price, sets the order to `Completed` and
drains the cart, but then calls `bookModel.purchaseBook`, which
`bookModel.js` does not export: the call throws, the response is 500
instead of the claimed success, and no user-book ownership row is created. -/
theorem confirmOrder_happy_path_bug :
    confirmOrder (fun _ => true) dbHappy 7 (some 20) =
      ({ status := 500, message := confirmInternalMsg },
       { dbHappy with
           cartItems := [],
           orders := [⟨20, 7, 25, none, "Completed", some 21, 5⟩],
           orderItems := [⟨30, 20, 2, 1, 5⟩, ⟨31, 20, 1, 2, 10⟩],
           next := 32 }) ∧
    (confirmOrder (fun _ => true) dbHappy 7 (some 20)).2.userBooks =
      dbHappy.userBooks := by
  constructor <;> rfl

/-- C2 counterexample: for a caller who has no cart yet, the get-session
step is not a pure read — it inserts a cart row. -/
theorem getCheckoutSessionStatus_mutates :
    (getCheckoutSessionStatus dbNoCart 7).2 ≠ dbNoCart := by decide

/-- C2 amended: the get-session step returns the cart contents, their
computed total and the caller's shipping addresses, and mutates nothing —
except that a caller without a cart row gets one lazily created (the only
possible change, and no change at all when the caller already has a
cart). -/
theorem getCheckoutSessionStatus_frame (db : DB) (userId : Nat) :
    ((∃ c ∈ db.carts, c.user_id = userId) →
        (getCheckoutSessionStatus db userId).2 = db) ∧
    (getCheckoutSessionStatus db userId).2.cartItems = db.cartItems ∧
    (getCheckoutSessionStatus db userId).2.books = db.books ∧
    (getCheckoutSessionStatus db userId).2.categories = db.categories ∧
    (getCheckoutSessionStatus db userId).2.addresses = db.addresses ∧
    (getCheckoutSessionStatus db userId).2.orders = db.orders ∧
    (getCheckoutSessionStatus db userId).2.orderItems = db.orderItems ∧
    (getCheckoutSessionStatus db userId).2.payments = db.payments ∧
    (getCheckoutSessionStatus db userId).2.userBooks = db.userBooks ∧
    ((getCheckoutSessionStatus db userId).2.carts = db.carts ∨
      ∃ c : Cart, c.user_id = userId ∧
        (getCheckoutSessionStatus db userId).2.carts = db.carts ++ [c]) ∧
    (getCheckoutSessionStatus db userId).1.items =
      getCartItemsByCartId (getCheckoutSessionStatus db userId).2
        (getCheckoutSessionStatus db userId).1.cart_id ∧
    (getCheckoutSessionStatus db userId).1.total_amount =
      cartItemsTotal (getCheckoutSessionStatus db userId).1.items ∧
    (getCheckoutSessionStatus db userId).1.shippingAddresses =
      getShippingAddresses db userId := by
  unfold getCheckoutSessionStatus getOrCreateCart
  cases hf : db.carts.find? (fun c => c.user_id == userId) with
  | some cart =>
      simp [hf]
  | none =>
      simp [hf]
      constructor
      · intro c hc hcu
        have hnone := List.find?_eq_none.mp hf c hc
        simp [hcu] at hnone
      · exact getShippingAddresses_congr db _ userId rfl

/-- Witness for C2: a caller who already has a cart sees no mutation at
all. -/
theorem getCheckoutSessionStatus_frame_witness :
    (getCheckoutSessionStatus dbHappy 7).2 = dbHappy :=
  (getCheckoutSessionStatus_frame dbHappy 7).1 ⟨⟨10, 7⟩, by decide, rfl⟩

/-- Full evaluation of `setPaymentMethod` on a supported method with an
existing cart and a non-empty listing. -/
theorem setPaymentMethod_supported_eq (db : DB) (userId : Nat) (pm : String)
    (addrId : Option Nat) (cart : Cart)
    (hcart : db.carts.find? (fun c => c.user_id == userId) = some cart)
    (hne : getCartItemsByCartId db cart.cart_id ≠ [])
    (hsup : supportedMethods.contains pm = true) :
    setPaymentMethod db userId (some pm) addrId =
      ({ status := 200,
         message := "Méthode de paiement enregistrée et paiement simulé réussi.",
         paymentId := some (db.next + 1),
         orderId := some db.next,
         orderStatus := some "Payment_Success" },
       { db with
           orders := (db.orders ++
             [(⟨db.next, userId,
               cartItemsTotal (getCartItemsByCartId db cart.cart_id), addrId,
               "Pending", none, db.next⟩ : Order)]).map
             (fun (o : Order) => if o.order_id == db.next then
               ({ o with
                   status := "Payment_Success",
                   payment_id := some (db.next + 1) })
             else o),
           payments := db.payments ++
             [⟨db.next + 1, userId, db.next, pm,
               cartItemsTotal (getCartItemsByCartId db cart.cart_id),
               "Completed", some (mkTxnId db)⟩],
           next := db.next + 2 }) := by
  have hg : getOrCreateCart db userId = (cart, db) := by
    unfold getOrCreateCart
    rw [hcart]
  have hie : (getCartItemsByCartId db cart.cart_id).isEmpty = false := by
    cases hl : getCartItemsByCartId db cart.cart_id with
    | nil => exact absurd hl hne
    | cons a l => rfl
  unfold setPaymentMethod
  rw [hg]
  simp only [hie, Bool.false_eq_true, if_false, hsup, if_true]
  rfl

/-- Full evaluation of `setPaymentMethod` on an unsupported method with an
existing cart and a non-empty listing: 400 and no change at all. -/
theorem setPaymentMethod_unsupported_eq (db : DB) (userId : Nat) (pm : String)
    (addrId : Option Nat) (cart : Cart)
    (hcart : db.carts.find? (fun c => c.user_id == userId) = some cart)
    (hne : getCartItemsByCartId db cart.cart_id ≠ [])
    (hsup : supportedMethods.contains pm = false) :
    setPaymentMethod db userId (some pm) addrId =
      ({ status := 400, message := "Méthode de paiement non supportée." }, db) := by
  have hg : getOrCreateCart db userId = (cart, db) := by
    unfold getOrCreateCart
    rw [hcart]
  have hie : (getCartItemsByCartId db cart.cart_id).isEmpty = false := by
    cases hl : getCartItemsByCartId db cart.cart_id with
    | nil => exact absurd hl hne
    | cons a l => rfl
  unfold setPaymentMethod
  rw [hg]
  simp only [hie, Bool.false_eq_true, if_false, hsup]

/-- C3: with a non-empty cart, a supported payment method (`Credit Card`,
`PayPal`, `E-Wallet`) always yields the simulated `Completed` outcome with a
freshly generated transaction id, a recorded `Payments` row, and an order in
`Payment_Success`; any other method value is answered 400 with the store
untouched — in particular before any `Orders` row is created. -/
theorem setPaymentMethod_simulation (db : DB) (userId : Nat) (pm : String)
    (addrId : Option Nat) (cart : Cart)
    (hcart : db.carts.find? (fun c => c.user_id == userId) = some cart)
    (hne : getCartItemsByCartId db cart.cart_id ≠ []) :
    ((∃ m : PaymentMethod, pm = m.wire) →
      (setPaymentMethod db userId (some pm) addrId).1.status = 200 ∧
      (setPaymentMethod db userId (some pm) addrId).1.orderStatus =
        some "Payment_Success" ∧
      ∃ p : Payment,
        (setPaymentMethod db userId (some pm) addrId).2.payments =
          db.payments ++ [p] ∧
        p.status = "Completed" ∧
        p.transaction_id = some (mkTxnId db) ∧
        (setPaymentMethod db userId (some pm) addrId).1.paymentId =
          some p.payment_id ∧
        ∃ o ∈ (setPaymentMethod db userId (some pm) addrId).2.orders,
          (setPaymentMethod db userId (some pm) addrId).1.orderId =
            some o.order_id ∧
          o.status = "Payment_Success" ∧
          o.payment_id = some p.payment_id) ∧
    ((∀ m : PaymentMethod, pm ≠ m.wire) →
      (setPaymentMethod db userId (some pm) addrId).1.status = 400 ∧
      (setPaymentMethod db userId (some pm) addrId).2 = db) := by
  constructor
  · rintro ⟨m, rfl⟩
    have hsup : supportedMethods.contains m.wire = true := by
      cases m <;> rfl
    rw [setPaymentMethod_supported_eq db userId m.wire addrId cart hcart hne hsup]
    refine ⟨rfl, rfl,
      ⟨db.next + 1, userId, db.next, m.wire,
        cartItemsTotal (getCartItemsByCartId db cart.cart_id),
        "Completed", some (mkTxnId db)⟩,
      rfl, rfl, rfl, rfl,
      ⟨db.next, userId, cartItemsTotal (getCartItemsByCartId db cart.cart_id),
        addrId, "Payment_Success", some (db.next + 1), db.next⟩,
      ?_, rfl, rfl, rfl⟩
    refine List.mem_map.mpr
      ⟨⟨db.next, userId, cartItemsTotal (getCartItemsByCartId db cart.cart_id),
        addrId, "Pending", none, db.next⟩,
       List.mem_append_right _ (List.mem_singleton_self _), ?_⟩
    simp
  · intro hinv
    have h1 := hinv .CreditCard
    have h2 := hinv .PayPal
    have h3 := hinv .EWallet
    simp only [PaymentMethod.wire] at h1 h2 h3
    have hsup : supportedMethods.contains pm = false := by
      simp [supportedMethods, h1, h2, h3]
    rw [setPaymentMethod_unsupported_eq db userId pm addrId cart hcart hne hsup]
    exact ⟨rfl, rfl⟩

/-- Witness for C3: in the mid-checkout store, paying with "PayPal" answers
200 and paying with "Bitcoin" answers 400. -/
theorem setPaymentMethod_simulation_witness :
    (setPaymentMethod dbHappy 7 (some "PayPal") none).1.status = 200 ∧
    (setPaymentMethod dbHappy 7 (some "Bitcoin") none).1.status = 400 := by
  constructor
  · exact ((setPaymentMethod_simulation dbHappy 7 "PayPal" none ⟨10, 7⟩ rfl
      (by decide)).1 ⟨.PayPal, rfl⟩).1
  · exact ((setPaymentMethod_simulation dbHappy 7 "Bitcoin" none ⟨10, 7⟩ rfl
      (by decide)).2 (by intro m; cases m <;> decide)).1

/-- A conditional row update keyed on an order id that no row carries is the
identity. -/
theorem map_update_fresh_order_id (l : List Order) (oid : Nat)
    (f : Order → Order) (h : ∀ o ∈ l, o.order_id ≠ oid) :
    l.map (fun o => if o.order_id == oid then f o else o) = l := by
  induction l with
  | nil => rfl
  | cons a l ih =>
      have ha : (a.order_id == oid) = false :=
        beq_eq_false_iff_ne.mpr (h a (List.mem_cons_self a l))
      rw [List.map_cons, ih (fun o ho => h o (List.mem_cons_of_mem _ ho)), ha]
      simp

/-- C5: with a supported method and a non-empty cart, `setPaymentMethod`
creates the order through `createOrder`, hence in `Pending` status, with
total = Σ (current catalog unit price × quantity) over the cart listing and
the supplied shipping-address reference; the persisted row (later moved to
`Payment_Success` within the same call) carries exactly that total and
address, and every listed price is the current catalog price. -/
theorem setPaymentMethod_creates_pending_order (db : DB) (userId : Nat)
    (m : PaymentMethod) (addrId : Option Nat) (cart : Cart)
    (hcart : db.carts.find? (fun c => c.user_id == userId) = some cart)
    (hne : getCartItemsByCartId db cart.cart_id ≠ [])
    (hids : ∀ o ∈ db.orders, o.order_id ≠ db.next) :
    (createOrder db userId
        (cartItemsTotal (getCartItemsByCartId db cart.cart_id)) addrId).1 =
      ⟨db.next, userId, cartItemsTotal (getCartItemsByCartId db cart.cart_id),
        addrId, "Pending", none, db.next⟩ ∧
    (setPaymentMethod db userId (some m.wire) addrId).2.orders =
      db.orders ++
        [⟨db.next, userId,
          cartItemsTotal (getCartItemsByCartId db cart.cart_id), addrId,
          "Payment_Success", some (db.next + 1), db.next⟩] ∧
    ∀ item ∈ getCartItemsByCartId db cart.cart_id,
      ∃ bk : Book,
        db.books.find? (fun b => b.book_id == item.book_id) = some bk ∧
        item.price = bk.price := by
  have hsup : supportedMethods.contains m.wire = true := by
    cases m <;> rfl
  refine ⟨rfl, ?_, ?_⟩
  · rw [setPaymentMethod_supported_eq db userId m.wire addrId cart hcart hne hsup]
    rw [List.map_append, map_update_fresh_order_id _ _ _ hids]
    simp
  · intro item hitem
    have hitem' : item ∈
        (db.cartItems.filter (fun ci => ci.cart_id == cart.cart_id)).filterMap
          (fun ci =>
            (db.books.find? (fun b => b.book_id == ci.book_id)).map
              (fun b =>
                (⟨ci.cart_item_id, ci.book_id, ci.quantity, ci.added_at,
                  b.title, b.author_name, b.price, b.cover_image_url⟩ :
                  CartItemView))) := by
      unfold getCartItemsByCartId at hitem
      exact (List.mem_insertionSort _).mp hitem
    obtain ⟨ci, _, heq⟩ := List.mem_filterMap.mp hitem'
    cases hbf : db.books.find? (fun b => b.book_id == ci.book_id) with
    | none =>
        rw [hbf] at heq
        simp at heq
    | some b =>
        rw [hbf] at heq
        have heq' : some
            (⟨ci.cart_item_id, ci.book_id, ci.quantity, ci.added_at,
              b.title, b.author_name, b.price, b.cover_image_url⟩ :
              CartItemView) = some item := heq
        injection heq' with hv
        refine ⟨b, ?_, ?_⟩
        · rw [← hv]
          exact hbf
        · rw [← hv]

/-- Witness for C5: paying with PayPal in the mid-checkout store appends the
order row with total 25 and no address reference. -/
theorem setPaymentMethod_creates_pending_order_witness :
    (setPaymentMethod dbHappy 7 (some "PayPal") none).2.orders =
      dbHappy.orders ++ [⟨30, 7, 25, none, "Payment_Success", some 31, 30⟩] :=
  (setPaymentMethod_creates_pending_order dbHappy 7 .PayPal none ⟨10, 7⟩
    rfl (by decide) (by decide)).2.1

/-- C9: order-item creation at confirmation is all-or-nothing. When a listed
cart item fails its catalog lookup the whole batch is rejected before any
insert, and when any insert of the bulk transaction fails the transaction
rolls back — in both cases confirmation answers 500 and the store is
returned exactly as it was: no `OrderItems` row persisted, order status
untouched. -/
theorem confirmOrder_all_or_nothing (insOk : Nat → Bool) (db : DB)
    (userId oid : Nat) (order : Order) (cart : Cart)
    (hord : getOrderById db oid = some order)
    (hown : order.user_id = userId)
    (hst : order.status = "Payment_Success")
    (hcart : db.carts.find? (fun c => c.user_id == userId) = some cart)
    (hne : getCartItemsByCartId db cart.cart_id ≠ []) :
    (itemsForOrder db (getCartItemsByCartId db cart.cart_id) = none →
      confirmOrder insOk db userId (some oid) =
        ({ status := 500, message := confirmInternalMsg }, db)) ∧
    (∀ items : List NewOrderItem,
      itemsForOrder db (getCartItemsByCartId db cart.cart_id) = some items →
      (∃ j, j < items.length ∧ insOk j = false) →
      confirmOrder insOk db userId (some oid) =
        ({ status := 500, message := confirmInternalMsg }, db)) := by
  have hg : getOrCreateCart db userId = (cart, db) := by
    unfold getOrCreateCart
    rw [hcart]
  have hie : (getCartItemsByCartId db cart.cart_id).isEmpty = false := by
    cases hl : getCartItemsByCartId db cart.cart_id with
    | nil => exact absurd hl hne
    | cons a l => rfl
  constructor
  · intro hnone
    simp only [confirmOrder, hord, hown, hst, bne_self_eq_false,
      Bool.false_eq_true, if_false, hg, hie, hnone]
  · intro items hsome hfail
    obtain ⟨e, he⟩ := addOrderItems_error insOk db order.order_id items hfail
    simp only [confirmOrder, hord, hown, hst, bne_self_eq_false,
      Bool.false_eq_true, if_false, hg, hie, hsome, he]

/-- Witness for C9: in the mid-checkout store, a failing order-item insert
makes confirmation answer 500 and leaves the store exactly as before. -/
theorem confirmOrder_all_or_nothing_witness :
    confirmOrder (fun _ => false) dbHappy 7 (some 20) =
      ({ status := 500, message := confirmInternalMsg }, dbHappy) :=
  (confirmOrder_all_or_nothing (fun _ => false) dbHappy 7 20
      ⟨20, 7, 25, none, "Payment_Success", some 21, 5⟩ ⟨10, 7⟩
      rfl rfl rfl rfl (by decide)).2
    [⟨2, 1, 5⟩, ⟨1, 2, 10⟩] rfl ⟨0, by decide, rfl⟩

/-- C10: a set-shipping call carrying a full new-address payload while the
cart is empty answers the empty-cart 400, yet the address row has already
been persisted before the cart check — and when `is_default` was requested,
the new row is the only default the user has left (all prior defaults were
cleared first). The empty-cart failure does not undo the address write. -/
theorem setShippingInformation_saves_despite_empty_cart (db : DB)
    (userId : Nat) (body : ShippingBody) (cart : Cart)
    (l1 city prov post ctry : String)
    (hid : body.addressId = none)
    (h1 : body.address_line1 = some l1) (h2 : body.city = some city)
    (h3 : body.province = some prov) (h4 : body.postal_code = some post)
    (h5 : body.country = some ctry)
    (hcart : db.carts.find? (fun c => c.user_id == userId) = some cart)
    (hempty : getCartItemsByCartId db cart.cart_id = []) :
    setShippingInformation db userId body =
      ({ status := 400,
         message := "Votre panier est vide. Impossible de démarrer le checkout." },
       (saveShippingAddress db userId
         ⟨l1, body.address_line2, city, prov, post, ctry, body.is_default⟩).2) ∧
    (saveShippingAddress db userId
        ⟨l1, body.address_line2, city, prov, post, ctry, body.is_default⟩).1 ∈
      (saveShippingAddress db userId
        ⟨l1, body.address_line2, city, prov, post, ctry, body.is_default⟩).2.addresses ∧
    (body.is_default = true →
      ∀ a ∈ (saveShippingAddress db userId
          ⟨l1, body.address_line2, city, prov, post, ctry, body.is_default⟩).2.addresses,
        a.user_id = userId → a.is_default = true →
        a = (saveShippingAddress db userId
          ⟨l1, body.address_line2, city, prov, post, ctry, body.is_default⟩).1) := by
  have hframe := saveShippingAddress_frame db userId
    ⟨l1, body.address_line2, city, prov, post, ctry, body.is_default⟩
  refine ⟨?_, ?_, ?_⟩
  · have hg1 : getOrCreateCart
        (saveShippingAddress db userId
          ⟨l1, body.address_line2, city, prov, post, ctry, body.is_default⟩).2
        userId =
        (cart,
         (saveShippingAddress db userId
           ⟨l1, body.address_line2, city, prov, post, ctry, body.is_default⟩).2) := by
      unfold getOrCreateCart
      rw [hframe.1, hcart]
    have hlist : getCartItemsByCartId
        (saveShippingAddress db userId
          ⟨l1, body.address_line2, city, prov, post, ctry, body.is_default⟩).2
        cart.cart_id = [] := by
      rw [getCartItemsByCartId_congr db _ cart.cart_id hframe.2.1 hframe.2.2.1]
      exact hempty
    simp only [setShippingInformation, hid, h1, h2, h3, h4, h5,
      shippingRespond, hg1, hlist, List.isEmpty_nil, if_true]
  · unfold saveShippingAddress
    by_cases hd : body.is_default = true <;>
      simp [hd, List.mem_append]
  · intro hd a ha hu hdef
    simp only [saveShippingAddress, hd, if_true] at ha ⊢
    rcases List.mem_append.mp ha with hmem | hmem
    · obtain ⟨x, _, hxe⟩ := List.mem_map.mp hmem
      by_cases hxu : (x.user_id == userId) = true
      · rw [if_pos hxu] at hxe
        rw [← hxe] at hdef
        simp at hdef
      · rw [if_neg hxu] at hxe
        rw [← hxe] at hu
        exact absurd (by simp [hu]) hxu
    · exact List.mem_singleton.mp hmem

/-- Witness for C10: against the empty-cart store, the full-payload request
`bodyW` is answered 400 but the store already holds the saved address. -/
theorem setShippingInformation_saves_despite_empty_cart_witness :
    setShippingInformation dbEmptyCart 7 bodyW =
      ({ status := 400,
         message := "Votre panier est vide. Impossible de démarrer le checkout." },
       (saveShippingAddress dbEmptyCart 7 dataW).2) :=
  (setShippingInformation_saves_despite_empty_cart dbEmptyCart 7 bodyW
    ⟨10, 7⟩ "1 rue" "Montreal" "QC" "H1H" "CA"
    rfl rfl rfl rfl rfl rfl rfl rfl).1

end BookTech
